import Mathlib

/-!
Verification development for the Ford FG Falcon ICC HVAC display
(`monochrome.py`).  The Python source is shallowly embedded: the mutable
`HVACState` dataclass becomes a Lean structure, each command callback of
`FordFGHVACApp` becomes a case of a pure step function returning the new
state together with its observable side effects (number of log lines
printed, whether a full re-render was requested), and the click
dispatchers of `HVACButtons` / `HVACSliders` become pure functions from
the click x-coordinate to the invoked command.  All `set_temp` arithmetic
in the source stays on exact multiples of 0.5, which binary floating
point represents exactly, so `ℚ` is a faithful model of the float field.
-/

namespace HVAC

/-- Embedding of the `HVACState` dataclass (`monochrome.py`, lines 28-38). -/
structure HVACState where
  set_temp : ℚ
  outside_temp : Int
  fan_speed : Int
  ac_on : Bool
  auto_mode : Bool
  front_defrost : Bool
  rear_defrost : Bool
  hours : Int
  minutes : Int
deriving DecidableEq

/-- The default state constructed once at startup:
`HVACState()` with the dataclass defaults 23.5, -12, 5, False, True, True,
True, 13, 28. -/
def initState : HVACState :=
  { set_temp := 47/2
    outside_temp := -12
    fan_speed := 5
    ac_on := false
    auto_mode := true
    front_defrost := true
    rear_defrost := true
    hours := 13
    minutes := 28 }

/-- The commands of the application: the 8 button-panel commands, the 4
slider commands (the passenger and driver temperature zones share
`temp_up` / `temp_down`, exactly as the callbacks dict binds
`pass_temp_up` and `drv_temp_up` to the same `_on_temp_up`), and the
clock tick parameterised by the wall-clock hour and minute it reads. -/
inductive Cmd where
  | off
  | recirc
  | ac
  | auto
  | hazard
  | front_def
  | air_dir
  | rear_def
  | fan_up
  | fan_down
  | temp_up
  | temp_down
  | tick (h m : Int)
deriving DecidableEq

/-- One command invocation: returns the new state, the number of log
lines printed, and whether `_refresh` (a full re-render) was called.
Each case embeds the corresponding `FordFGHVACApp` callback:
`_on_off` / `_on_recirc` and the `hazard` / `air_dir` lambdas print one
line and touch nothing; the four toggles flip their boolean, print one
line and refresh; `_on_fan_up` / `_on_fan_down` and
`_on_temp_up` / `_on_temp_down` are guarded increments that do nothing
at all when the guard fails; `_update_clock` overwrites `hours` and
`minutes` from the wall clock and always refreshes (printing nothing). -/
def step : Cmd → HVACState → HVACState × Nat × Bool
  | .off, s => (s, 1, false)
  | .recirc, s => (s, 1, false)
  | .hazard, s => (s, 1, false)
  | .air_dir, s => (s, 1, false)
  | .ac, s => ({ s with ac_on := !s.ac_on }, 1, true)
  | .auto, s => ({ s with auto_mode := !s.auto_mode }, 1, true)
  | .front_def, s => ({ s with front_defrost := !s.front_defrost }, 1, true)
  | .rear_def, s => ({ s with rear_defrost := !s.rear_defrost }, 1, true)
  | .fan_up, s =>
      if s.fan_speed < 8 then ({ s with fan_speed := s.fan_speed + 1 }, 1, true)
      else (s, 0, false)
  | .fan_down, s =>
      if s.fan_speed > 0 then ({ s with fan_speed := s.fan_speed - 1 }, 1, true)
      else (s, 0, false)
  | .temp_up, s =>
      if s.set_temp < 32 then ({ s with set_temp := s.set_temp + 1/2 }, 1, true)
      else (s, 0, false)
  | .temp_down, s =>
      if s.set_temp > 16 then ({ s with set_temp := s.set_temp - 1/2 }, 1, true)
      else (s, 0, false)
  | .tick h m, s => ({ s with hours := h, minutes := m }, 0, true)

/-- Run a sequence of command invocations, keeping only the state. -/
def run (cs : List Cmd) (s : HVACState) : HVACState :=
  cs.foldl (fun st c => (step c st).1) s

/-- The data-model invariant of the spec: `set_temp` is a multiple of 0.5
(i.e. `2 * set_temp` is an integer) lying in [16, 32], and `fan_speed` is
an integer lying in [0, 8]. -/
def Inv (s : HVACState) : Prop :=
  (2 * s.set_temp).den = 1 ∧ 16 ≤ s.set_temp ∧ s.set_temp ≤ 32 ∧
    0 ≤ s.fan_speed ∧ s.fan_speed ≤ 8

/-- The state after sixteen temp-up invocations from the default state. -/
def s16 : HVACState := run (List.replicate 16 Cmd.temp_up) initState

/-- The state after seventeen temp-up invocations from the default state. -/
def s17 : HVACState := run (List.replicate 17 Cmd.temp_up) initState

/-! ## Click dispatch -/

/-- Embedding of `HVACButtons._on_click` (lines 482-499): the elif chain
mapping the click x-coordinate to the name of the callback looked up in
the callbacks dict.  Every branch invokes exactly one callback, so the
result is the invoked command name. -/
def buttonDispatch (x : Int) : String :=
  if x < 72 then "off"
  else if x < 144 then "recirc"
  else if x < 216 then "ac"
  else if x < 288 then "auto"
  else if x < 360 then "hazard"
  else if x < 432 then "front_def"
  else if x < 504 then "air_dir"
  else "rear_def"

/-- The 8 command names bound to the button bands, in band order. -/
def buttonNames : List String :=
  ["off", "recirc", "ac", "auto", "hazard", "front_def", "air_dir", "rear_def"]

/-- Band membership for the 8 contiguous button bands with breakpoints
72, 144, 216, 288, 360, 432, 504 (band `i` spans `[72*i, 72*(i+1))`,
with band 0 open below and band 7 open above). -/
def inBand (i : Nat) (x : Int) : Bool :=
  (decide (i = 0) || decide ((72 * (i : Int)) ≤ x)) &&
    (decide (i = 7) || decide (x < 72 * ((i : Int) + 1)))

/-- Embedding of `HVACSliders._on_click` (lines 615-634): three thirds
split at 193 and 387; inside each third a decrement zone, a dead zone
(no callback at all), and an increment zone.  `none` models the click
falling through every branch without invoking a callback. -/
def sliderDispatch (x : Int) : Option String :=
  if x < 193 then
    if x < 50 then some "pass_temp_down"
    else if x > 140 then some "pass_temp_up"
    else none
  else if x < 387 then
    if x < 240 then some "fan_down"
    else if x > 340 then some "fan_up"
    else none
  else
    if x < 430 then some "drv_temp_down"
    else if x > 530 then some "drv_temp_up"
    else none

/-! ## Seven-segment renderer -/

/-- Embedding of the `patterns` dict of `HVACDisplay._draw_7seg`
(lines 275-288): segment flags in order A, B, C, D, E, F, G. -/
def patterns : List (Char × List Bool) :=
  [ ('0', [true, true, true, true, true, true, false]),
    ('1', [false, true, true, false, false, false, false]),
    ('2', [true, true, false, true, true, false, true]),
    ('3', [true, true, true, true, false, false, true]),
    ('4', [false, true, true, false, false, true, true]),
    ('5', [true, false, true, true, false, true, true]),
    ('6', [true, false, true, true, true, true, true]),
    ('7', [true, true, true, false, false, false, false]),
    ('8', [true, true, true, true, true, true, true]),
    ('9', [true, true, true, true, false, true, true]),
    ('-', [false, false, false, false, false, false, true]),
    (' ', [false, false, false, false, false, false, false]) ]

/-- `patterns.get(digit, (0,0,0,0,0,0,0))`: the segment flags for a
character, defaulting to all-off for unrecognized characters. -/
def segsFor (c : Char) : List Bool :=
  (patterns.lookup c).getD (List.replicate 7 false)

/-- Number of polygons `_draw_7seg` emits for a character: one per lit
segment (each `if segs[i]:` guards one `create_polygon` call). -/
def segPolyCount (c : Char) : Nat :=
  (segsFor c).count true

/-! ## The display render

`HVACDisplay.draw` issues a fixed sequence of drawing primitives; the
state-dependent parts are abstracted into `RenderOut` below.  The glyphs
drawn by the set-temp loop (lines 143-153) are modelled as a list of
`SegOp`s: the loop sends `'.'` to a filled oval (the decimal point) and
every other character of the formatted string to `_draw_7seg`. -/

/-- One glyph operation of the set-temp drawing loop. -/
inductive SegOp where
  | dot
  | seg (c : Char)
deriving DecidableEq

/-- Python `f"{h:02d}"` for the in-range clock fields (0 ≤ n < 100):
zero-padded to two digits. -/
def pad2 (n : Int) : String :=
  if n < 10 then "0" ++ toString n else toString n

/-- Digit-string layout of a value of `t` tenths: the digits of `t / 10`,
a decimal point, the digit `t % 10`, left-padded with zeros to overall
width 4. -/
def fmtTenths (t : Nat) : List Char :=
  List.replicate
      (4 - (Nat.toDigits 10 (t / 10) ++ ['.'] ++ Nat.toDigits 10 (t % 10)).length) '0' ++
    (Nat.toDigits 10 (t / 10) ++ ['.'] ++ Nat.toDigits 10 (t % 10))

/-- Python `f"{q:04.1f}"` for a nonnegative multiple of 0.1 below 100
(the only values `set_temp` takes): one digit after the decimal point,
left-padded with zeros to overall width 4.  `(q * 10).num` is the exact
integer `10 * q` on this domain. -/
def formatTemp1 (q : ℚ) : List Char :=
  fmtTenths (q * 10).num.toNat

/-- The state-dependent content of one full `HVACDisplay.draw` pass. -/
structure RenderOut where
  timeText : String
  outsideChars : List Char
  setTempOps : List SegOp
  fanFilled : Nat
  bottomLeftText : String
  bottomRightText : String
deriving DecidableEq

/-- Embedding of `HVACDisplay.draw` (lines 55-189), keeping the
state-dependent data: the `HH:MM` time string; the three outside-temp
characters, which the source hardcodes as `"-"`, `"1"`, `"2"`
(lines 125-127) with no reference to `state.outside_temp`; the set-temp
glyph loop over `f"{state.set_temp:04.1f}"`; the number of filled
fan-bar rectangles (those `i` in `range(8)` with `i < fan_speed`); and
the two bottom label strings, hardcoded as `"Semi-Auto"` and `"A/C Off"`
(lines 185-189) with no reference to `auto_mode` or `ac_on`. -/
def draw (s : HVACState) : RenderOut :=
  { timeText := pad2 s.hours ++ ":" ++ pad2 s.minutes
    outsideChars := ['-', '1', '2']
    setTempOps :=
      (formatTemp1 s.set_temp).map (fun c => if c = '.' then SegOp.dot else SegOp.seg c)
    fanFilled := ((List.range 8).filter (fun i => (i : Int) < s.fan_speed)).length
    bottomLeftText := "Semi-Auto"
    bottomRightText := "A/C Off" }

/-- Modelled from the spec: "outside temp as signed two-digit" — a minus
sign for negative values followed by the absolute value zero-padded to
two digits.  Used only to compare the spec's claimed formatting with
what `draw` actually emits. -/
def specOutsideChars (n : Int) : List Char :=
  (if n < 0 then ['-'] else []) ++
    List.replicate (2 - (Nat.toDigits 10 n.natAbs).length) '0' ++
      Nat.toDigits 10 n.natAbs

/-- The numeric value of a digit character. -/
def digitVal (c : Char) : Nat := c.toNat - 48

/-- The well-formedness of the formatted set-temp string: four
characters, a decimal point in position 2, digits elsewhere, and the
digits read back as exactly `10 * q` tenths. -/
def tempCharsSpec (q : ℚ) : Prop :=
  (formatTemp1 q).length = 4 ∧
  (formatTemp1 q).getD 2 ' ' = '.' ∧
  ((formatTemp1 q).getD 0 ' ').isDigit ∧
  ((formatTemp1 q).getD 1 ' ').isDigit ∧
  ((formatTemp1 q).getD 3 ' ').isDigit ∧
  ((digitVal ((formatTemp1 q).getD 0 ' ') * 100 +
      digitVal ((formatTemp1 q).getD 1 ' ') * 10 +
      digitVal ((formatTemp1 q).getD 3 ' ') : ℕ) : ℚ) = 10 * q

/-! ## Helper lemmas -/

lemma den_one_add_one {x : ℚ} (h : x.den = 1) : (x + 1).den = 1 := by
  have hx : (x.num : ℚ) = x := (Rat.den_eq_one_iff x).mp h
  have hrw : x + 1 = ((x.num + 1 : ℤ) : ℚ) := by push_cast [hx]; ring
  rw [hrw, Rat.den_intCast]

lemma den_one_sub_one {x : ℚ} (h : x.den = 1) : (x - 1).den = 1 := by
  have hx : (x.num : ℚ) = x := (Rat.den_eq_one_iff x).mp h
  have hrw : x - 1 = ((x.num - 1 : ℤ) : ℚ) := by push_cast [hx]; ring
  rw [hrw, Rat.den_intCast]

lemma step_preserves_Inv (c : Cmd) (s : HVACState) (h : Inv s) :
    Inv ((step c s).1) := by
  obtain ⟨hden, hlo, hhi, hf0, hf8⟩ := h
  have hnum : ((2 * s.set_temp).num : ℚ) = 2 * s.set_temp :=
    (Rat.den_eq_one_iff _).mp hden
  cases c with
  | off => exact ⟨hden, hlo, hhi, hf0, hf8⟩
  | recirc => exact ⟨hden, hlo, hhi, hf0, hf8⟩
  | hazard => exact ⟨hden, hlo, hhi, hf0, hf8⟩
  | air_dir => exact ⟨hden, hlo, hhi, hf0, hf8⟩
  | ac => exact ⟨hden, hlo, hhi, hf0, hf8⟩
  | auto => exact ⟨hden, hlo, hhi, hf0, hf8⟩
  | front_def => exact ⟨hden, hlo, hhi, hf0, hf8⟩
  | rear_def => exact ⟨hden, hlo, hhi, hf0, hf8⟩
  | tick h m => exact ⟨hden, hlo, hhi, hf0, hf8⟩
  | fan_up =>
      simp only [step]
      split
      · rename_i hlt
        refine ⟨hden, hlo, hhi, ?_, ?_⟩
        · show 0 ≤ s.fan_speed + 1; omega
        · show s.fan_speed + 1 ≤ 8; omega
      · exact ⟨hden, hlo, hhi, hf0, hf8⟩
  | fan_down =>
      simp only [step]
      split
      · rename_i hgt
        refine ⟨hden, hlo, hhi, ?_, ?_⟩
        · show 0 ≤ s.fan_speed - 1; omega
        · show s.fan_speed - 1 ≤ 8; omega
      · exact ⟨hden, hlo, hhi, hf0, hf8⟩
  | temp_up =>
      simp only [step]
      split
      · rename_i hlt
        refine ⟨?_, ?_, ?_, hf0, hf8⟩
        · show (2 * (s.set_temp + 1/2)).den = 1
          have hrw : 2 * (s.set_temp + 1/2) = 2 * s.set_temp + 1 := by ring
          rw [hrw]; exact den_one_add_one hden
        · show (16:ℚ) ≤ s.set_temp + 1/2
          linarith
        · -- 2 * set_temp is an integer strictly below 64, hence at most 63
          show s.set_temp + 1/2 ≤ 32
          have h64 : ((2 * s.set_temp).num : ℚ) < 64 := by rw [hnum]; linarith
          have h64i : (2 * s.set_temp).num < 64 := by exact_mod_cast h64
          have h63i : (2 * s.set_temp).num ≤ 63 := by omega
          have h63 : ((2 * s.set_temp).num : ℚ) ≤ 63 := by exact_mod_cast h63i
          rw [hnum] at h63; linarith
      · exact ⟨hden, hlo, hhi, hf0, hf8⟩
  | temp_down =>
      simp only [step]
      split
      · rename_i hgt
        refine ⟨?_, ?_, ?_, hf0, hf8⟩
        · show (2 * (s.set_temp - 1/2)).den = 1
          have hrw : 2 * (s.set_temp - 1/2) = 2 * s.set_temp - 1 := by ring
          rw [hrw]; exact den_one_sub_one hden
        · -- 2 * set_temp is an integer strictly above 32, hence at least 33
          show (16:ℚ) ≤ s.set_temp - 1/2
          have h32 : (32 : ℚ) < ((2 * s.set_temp).num : ℚ) := by rw [hnum]; linarith
          have h32i : (32 : ℤ) < (2 * s.set_temp).num := by exact_mod_cast h32
          have h33i : (33 : ℤ) ≤ (2 * s.set_temp).num := by omega
          have h33 : (33 : ℚ) ≤ ((2 * s.set_temp).num : ℚ) := by exact_mod_cast h33i
          rw [hnum] at h33; linarith
        · show s.set_temp - 1/2 ≤ 32
          linarith
      · exact ⟨hden, hlo, hhi, hf0, hf8⟩

lemma run_preserves_Inv (cs : List Cmd) (s : HVACState) (h : Inv s) :
    Inv (run cs s) := by
  induction cs generalizing s with
  | nil => exact h
  | cons c cs ih => exact ih _ (step_preserves_Inv c s h)

lemma Inv_initState : Inv initState := by
  unfold Inv initState
  norm_num

lemma step_outside (c : Cmd) (s : HVACState) :
    ((step c s).1).outside_temp = s.outside_temp := by
  cases c <;> first | rfl | (simp only [step]; split <;> rfl)

lemma run_outside (cs : List Cmd) (s : HVACState) :
    (run cs s).outside_temp = s.outside_temp := by
  induction cs generalizing s with
  | nil => rfl
  | cons c cs ih =>
      have hstep : run (c :: cs) s = run cs ((step c s).1) := rfl
      rw [hstep, ih, step_outside]

lemma exists_band (x : Int) : ∃ i, i < 8 ∧ inBand i x = true := by
  by_cases h1 : x < 72
  · exact ⟨0, by omega, by simp [inBand]; omega⟩
  by_cases h2 : x < 144
  · exact ⟨1, by omega, by simp [inBand]; omega⟩
  by_cases h3 : x < 216
  · exact ⟨2, by omega, by simp [inBand]; omega⟩
  by_cases h4 : x < 288
  · exact ⟨3, by omega, by simp [inBand]; omega⟩
  by_cases h5 : x < 360
  · exact ⟨4, by omega, by simp [inBand]; omega⟩
  by_cases h6 : x < 432
  · exact ⟨5, by omega, by simp [inBand]; omega⟩
  by_cases h7 : x < 504
  · exact ⟨6, by omega, by simp [inBand]; omega⟩
  · exact ⟨7, by omega, by simp [inBand]; omega⟩

lemma band_unique (x : Int) (i j : Nat) (hi : i < 8) (hj : j < 8)
    (hbi : inBand i x = true) (hbj : inBand j x = true) : i = j := by
  interval_cases i <;> interval_cases j <;>
    simp [inBand] at hbi hbj <;> omega

set_option maxRecDepth 8000 in
set_option maxHeartbeats 1000000 in
lemma fmtTenths_ok :
    ∀ t ∈ Finset.Icc (160:ℕ) 320,
      (fmtTenths t).length = 4 ∧ (fmtTenths t).getD 2 ' ' = '.' ∧
      ((fmtTenths t).getD 0 ' ').isDigit ∧ ((fmtTenths t).getD 1 ' ').isDigit ∧
      ((fmtTenths t).getD 3 ' ').isDigit ∧
      digitVal ((fmtTenths t).getD 0 ' ') * 100 + digitVal ((fmtTenths t).getD 1 ' ') * 10 +
        digitVal ((fmtTenths t).getD 3 ' ') = t := by
  decide

lemma formatTemp1_spec {q : ℚ} (hden : (2 * q).den = 1) (hlo : 16 ≤ q)
    (hhi : q ≤ 32) : tempCharsSpec q := by
  have hkq : (((2 * q).num : ℤ) : ℚ) = 2 * q := (Rat.den_eq_one_iff _).mp hden
  set k : ℤ := (2 * q).num with hk
  have hk32 : (32 : ℤ) ≤ k := by
    have h1 : (32 : ℚ) ≤ (k : ℚ) := by rw [hkq]; linarith
    exact_mod_cast h1
  have hk64 : k ≤ 64 := by
    have h1 : (k : ℚ) ≤ 64 := by rw [hkq]; linarith
    exact_mod_cast h1
  have h5 : ((5 * k : ℤ) : ℚ) = 5 * (k : ℚ) := by push_cast; ring
  have hq10 : q * 10 = ((5 * k : ℤ) : ℚ) := by rw [h5, hkq]; ring
  have hnum10 : (q * 10).num = 5 * k := by rw [hq10, Rat.num_intCast]
  have h5k0 : (0 : ℤ) ≤ 5 * k := by omega
  have ht1 : 160 ≤ (5 * k).toNat := by omega
  have ht2 : (5 * k).toNat ≤ 320 := by omega
  have hmem : (5 * k).toNat ∈ Finset.Icc (160:ℕ) 320 := Finset.mem_Icc.mpr ⟨ht1, ht2⟩
  obtain ⟨p1, p2, p3, p4, p5, p6⟩ := fmtTenths_ok ((5 * k).toNat) hmem
  have hform : formatTemp1 q = fmtTenths (5 * k).toNat := by
    unfold formatTemp1; rw [hnum10]
  have htQ : (((5 * k).toNat : ℕ) : ℚ) = 10 * q := by
    have hc1 : (((5 * k).toNat : ℕ) : ℤ) = 5 * k := Int.toNat_of_nonneg h5k0
    have hc2 : (((5 * k).toNat : ℕ) : ℚ) = ((5 * k : ℤ) : ℚ) := by exact_mod_cast hc1
    rw [hc2, h5, hkq]; ring
  refine ⟨?_, ?_, ?_, ?_, ?_, ?_⟩ <;> rw [hform]
  · exact p1
  · exact p2
  · exact p3
  · exact p4
  · exact p5
  · rw [p6]; exact htQ

/-! ## Claims -/

/-- C1: For every sequence of command invocations starting from the
default state (23.5 degrees, fan 5), the reached state satisfies both
invariants: `set_temp` is a multiple of 0.5 within [16.0, 32.0] and
`fan_speed` is an integer within [0, 8].  Every command — the guarded
temperature and fan adjustments, the four toggles, the four stateless
commands and the clock tick — preserves them. -/
theorem c1_invariants_preserved (cs : List Cmd) : Inv (run cs initState) :=
  run_preserves_Inv cs initState Inv_initState

/-- C2: For every state with `fan_speed` in [0, 8]: fan-up at 8 and
fan-down at 0 leave the state unchanged with no log and no render;
otherwise the command moves `fan_speed` by exactly 1 (staying in
[0, 8]), prints exactly one log line and re-renders. -/
theorem c2_fan_adjust (s : HVACState) (h0 : 0 ≤ s.fan_speed) (h8 : s.fan_speed ≤ 8) :
    (s.fan_speed = 8 → step Cmd.fan_up s = (s, 0, false)) ∧
    (s.fan_speed < 8 →
      step Cmd.fan_up s = ({ s with fan_speed := s.fan_speed + 1 }, 1, true) ∧
      0 ≤ s.fan_speed + 1 ∧ s.fan_speed + 1 ≤ 8) ∧
    (s.fan_speed = 0 → step Cmd.fan_down s = (s, 0, false)) ∧
    (0 < s.fan_speed →
      step Cmd.fan_down s = ({ s with fan_speed := s.fan_speed - 1 }, 1, true) ∧
      0 ≤ s.fan_speed - 1 ∧ s.fan_speed - 1 ≤ 8) := by
  refine ⟨?_, ?_, ?_, ?_⟩
  · intro h
    simp only [step]
    rw [if_neg (by omega)]
  · intro h
    refine ⟨?_, by omega, by omega⟩
    simp only [step]
    rw [if_pos (by omega)]
  · intro h
    simp only [step]
    rw [if_neg (by omega)]
  · intro h
    refine ⟨?_, by omega, by omega⟩
    simp only [step]
    rw [if_pos (by omega)]

/-- Witness for C2 at the default state (fan 5): fan-up moves to 6 with
one log line and a re-render. -/
theorem c2_fan_adjust_witness :
    step Cmd.fan_up initState = ({ initState with fan_speed := 6 }, 1, true) :=
  ((c2_fan_adjust initState (by decide) (by decide)).2.1 (by decide)).1

/-- C3 counterexample: after sixteen temp-up invocations from the
default 23.5 the state holds 31.5, not 32.0, so the 17th invocation is
not a no-op: it moves the temperature to 32.0, prints a log line and
re-renders.  (Only an 18th invocation, from 32.0, would be a no-op.) -/
theorem c3_counterexample :
    s16.set_temp = 63/2 ∧ s16.set_temp ≠ 32 ∧
      step Cmd.temp_up s16 = ({ s16 with set_temp := 32 }, 1, true) := by
  refine ⟨?_, ?_, ?_⟩ <;>
    norm_num [s16, run, step, initState, List.replicate, List.foldl]

/-- C3 amended: starting from 23.5, seventeen temp-up invocations
saturate `set_temp` at 32.0 — the 17th moves 31.5 to 32.0 with one log
line and a re-render — and the next invocation, from 32.0, is a no-op
(no state change, no log, no re-render). -/
theorem c3_saturation :
    s16.set_temp = 63/2 ∧ step Cmd.temp_up s16 = (s17, 1, true) ∧
      s17.set_temp = 32 ∧ step Cmd.temp_up s17 = (s17, 0, false) := by
  refine ⟨?_, ?_, ?_, ?_⟩ <;>
    norm_num [s16, s17, run, step, initState, List.replicate, List.foldl]

/-- C4: every integer click x-coordinate on the button panel lies in
exactly one of the 8 contiguous bands cut at 72, 144, 216, 288, 360,
432, 504, the dispatcher invokes exactly the callback of that band, and
a click at x = 40 resolves to the `off` command only. -/
theorem c4_button_bands :
    (∀ x : Int, ∃! i : Nat, i < 8 ∧ inBand i x = true) ∧
    (∀ x : Int, ∀ i : Nat, i < 8 → inBand i x = true →
      buttonDispatch x = buttonNames.getD i "") ∧
    buttonDispatch 40 = "off" := by
  refine ⟨?_, ?_, rfl⟩
  · intro x
    obtain ⟨i, hi, hb⟩ := exists_band x
    exact ⟨i, ⟨hi, hb⟩, fun j hj => band_unique x j i hj.1 hi hj.2 hb⟩
  · intro x i hi hb
    interval_cases i <;> simp [inBand] at hb <;>
      unfold buttonDispatch <;> split_ifs <;> first | rfl | omega

/-- Witness for C4: x = 150 lies in band 2 and dispatches to `ac`. -/
theorem c4_button_bands_witness :
    buttonDispatch 150 = buttonNames.getD 2 "" :=
  c4_button_bands.2.1 150 2 (by decide) (by decide)

/-- C5: the seven-segment table has the twelve distinct keys 0-9, minus
and space, each bound to one fixed 7-boolean pattern; `'-'` lights only
segment G, space lights no segment, and every character outside the
table maps to the all-off pattern, for which no polygon is drawn. -/
theorem c5_seg_table :
    (patterns.map Prod.fst).Nodup ∧
    patterns.map Prod.fst = ['0','1','2','3','4','5','6','7','8','9','-',' '] ∧
    segsFor '-' = [false, false, false, false, false, false, true] ∧
    segsFor ' ' = List.replicate 7 false ∧
    (∀ p ∈ patterns, p.2.length = 7) ∧
    (∀ c : Char, c ∉ patterns.map Prod.fst →
      segsFor c = List.replicate 7 false ∧ segPolyCount c = 0) := by
  refine ⟨by decide, by decide, by decide, by decide, by decide, ?_⟩
  intro c h
  simp [patterns] at h
  obtain ⟨h0, h1, h2, h3, h4, h5, h6, h7, h8, h9, hminus, hspace⟩ := h
  have e0 : (c == '0') = false := by simpa using h0
  have e1 : (c == '1') = false := by simpa using h1
  have e2 : (c == '2') = false := by simpa using h2
  have e3 : (c == '3') = false := by simpa using h3
  have e4 : (c == '4') = false := by simpa using h4
  have e5 : (c == '5') = false := by simpa using h5
  have e6 : (c == '6') = false := by simpa using h6
  have e7 : (c == '7') = false := by simpa using h7
  have e8 : (c == '8') = false := by simpa using h8
  have e9 : (c == '9') = false := by simpa using h9
  have em : (c == '-') = false := by simpa using hminus
  have es : (c == ' ') = false := by simpa using hspace
  have hall : segsFor c = List.replicate 7 false := by
    simp [segsFor, patterns, List.lookup, e0, e1, e2, e3, e4, e5, e6, e7, e8, e9, em, es]
  exact ⟨hall, by simp [segPolyCount, hall]⟩

/-- Witness for C5: the character X is outside the table and renders
nothing. -/
theorem c5_seg_table_witness :
    segsFor 'X' = List.replicate 7 false ∧ segPolyCount 'X' = 0 :=
  c5_seg_table.2.2.2.2.2 'X' (by decide)

/-- C6 counterexample: toggling `ac` from the default state does set
`ac_on`, but the re-rendered bottom label is the hardcoded string
`"A/C Off"` (line 188 of the source), identical to the label before the
toggle — the display never reflects the A/C state. -/
theorem c6_counterexample :
    (step Cmd.ac initState).1.ac_on = true ∧
    (draw (step Cmd.ac initState).1).bottomRightText = (draw initState).bottomRightText :=
  ⟨rfl, rfl⟩

/-- C6 amended: from the default state, the `ac` command sets `ac_on` to
true, prints exactly one log line and re-renders; toggling again
restores the original state exactly; the bottom-right label of the
render is the constant `"A/C Off"` in both states. -/
theorem c6_ac_toggle :
    step Cmd.ac initState = ({ initState with ac_on := true }, 1, true) ∧
    step Cmd.ac (step Cmd.ac initState).1 = (initState, 1, true) ∧
    (draw (step Cmd.ac initState).1).bottomRightText = "A/C Off" ∧
    (draw initState).bottomRightText = "A/C Off" :=
  ⟨rfl, rfl, rfl, rfl⟩

/-- C7: the slider dispatcher maps every integer click x-coordinate into
three thirds split at 193 and 387, each with a decrement zone, a dead
zone that invokes no callback, and an increment zone, cut at the inner
breakpoints 50/140, 240/340 and 430/530; at most one callback fires. -/
theorem c7_slider_zones (x : Int) :
    (x < 50 → sliderDispatch x = some "pass_temp_down") ∧
    (50 ≤ x → x ≤ 140 → sliderDispatch x = none) ∧
    (140 < x → x < 193 → sliderDispatch x = some "pass_temp_up") ∧
    (193 ≤ x → x < 240 → sliderDispatch x = some "fan_down") ∧
    (240 ≤ x → x ≤ 340 → sliderDispatch x = none) ∧
    (340 < x → x < 387 → sliderDispatch x = some "fan_up") ∧
    (387 ≤ x → x < 430 → sliderDispatch x = some "drv_temp_down") ∧
    (430 ≤ x → x ≤ 530 → sliderDispatch x = none) ∧
    (530 < x → sliderDispatch x = some "drv_temp_up") := by
  refine ⟨?_, ?_, ?_, ?_, ?_, ?_, ?_, ?_, ?_⟩ <;> intros <;>
    unfold sliderDispatch <;> split_ifs <;> first | rfl | omega

/-- Witness for C7: x = 20 decrements the passenger temperature and
x = 100 falls in the left dead zone. -/
theorem c7_slider_zones_witness :
    sliderDispatch 20 = some "pass_temp_down" ∧ sliderDispatch 100 = none :=
  ⟨(c7_slider_zones 20).1 (by decide), (c7_slider_zones 100).2.1 (by decide) (by decide)⟩

/-- C8 counterexample: for a state whose `outside_temp` is 7 the render
still draws the hardcoded characters minus, 1, 2 (lines 125-127 of the
source), which are not the signed two-digit formatting of 7 — the
outside-temp glyphs do not come from `state.outside_temp`. -/
theorem c8_counterexample :
    (draw { initState with outside_temp := 7 }).outsideChars = ['-', '1', '2'] ∧
    specOutsideChars 7 = ['0', '7'] ∧
    specOutsideChars 7 ≠ ['-', '1', '2'] :=
  ⟨rfl, by decide, by decide⟩

/-- C8 amended: for every reachable state, the render draws the
set-temperature as the characters of `set_temp` formatted to one decimal
place — four characters, a decimal point (drawn as a filled circle) in
position 2, digit characters elsewhere that read back as exactly
`10 * set_temp` tenths, each digit passed through the seven-segment
renderer — while the outside-temperature glyphs are the fixed characters
minus, 1, 2, independent of `outside_temp`; they coincide with the
signed two-digit formatting of the default value -12, the only value
`outside_temp` ever holds, since no command mutates it. -/
theorem c8_render_glyphs (cs : List Cmd) :
    (draw (run cs initState)).setTempOps =
      (formatTemp1 (run cs initState).set_temp).map
        (fun c => if c = '.' then SegOp.dot else SegOp.seg c) ∧
    tempCharsSpec (run cs initState).set_temp ∧
    (draw (run cs initState)).outsideChars = ['-', '1', '2'] ∧
    (run cs initState).outside_temp = -12 ∧
    specOutsideChars (-12) = ['-', '1', '2'] := by
  obtain ⟨hden, hlo, hhi, -, -⟩ := run_preserves_Inv cs initState Inv_initState
  exact ⟨rfl, formatTemp1_spec hden hlo hhi, rfl, (run_outside cs initState).trans rfl,
    by decide⟩

/-- C9: each of the four stateless commands prints exactly one log line,
leaves every field of the state unchanged, and does not re-render. -/
theorem c9_stateless_commands (s : HVACState) :
    step Cmd.off s = (s, 1, false) ∧ step Cmd.recirc s = (s, 1, false) ∧
    step Cmd.hazard s = (s, 1, false) ∧ step Cmd.air_dir s = (s, 1, false) :=
  ⟨rfl, rfl, rfl, rfl⟩

/-- C10: the button dispatcher is total over all integers: any x below
72, including negative coordinates, invokes `off`; any x at or above
504, including coordinates beyond the 580-pixel panel width, invokes
`rear_def`; and every integer input resolves to one of the eight bound
command names, so no dispatch can fail. -/
theorem c10_button_total (x : Int) :
    (x < 72 → buttonDispatch x = "off") ∧
    (504 ≤ x → buttonDispatch x = "rear_def") ∧
    buttonDispatch x ∈ buttonNames := by
  refine ⟨?_, ?_, ?_⟩
  · intro h
    unfold buttonDispatch
    split_ifs <;> first | rfl | omega
  · intro h
    unfold buttonDispatch
    split_ifs <;> first | rfl | omega
  · unfold buttonDispatch
    split_ifs <;> decide

/-- Witness for C10 at out-of-panel inputs: x = -5 still dispatches to
`off` and x = 999 still dispatches to `rear_def`. -/
theorem c10_button_total_witness :
    buttonDispatch (-5) = "off" ∧ buttonDispatch 999 = "rear_def" :=
  ⟨(c10_button_total (-5)).1 (by decide), (c10_button_total 999).2.1 (by decide)⟩

end HVAC
